import Mathlib

/-
Verification of the on_this_day event aggregator (src/main.py) against its
natural-language specification. The Python data model and the pure logic of
the source adapters, the ordering key and the collector are embedded as
executable Lean definitions; library mechanics (HTTP, BeautifulSoup tag
traversal, JSON decoding) are abstracted to the values they deliver, as the
spec declares them out of scope. Python runtime failures (NameError,
TypeError, ValueError) are modelled with an explicit error type so that code
paths that raise can be evaluated.
-/

deriving instance DecidableEq for Except

namespace OnThisDay

/-- Calendar date with year, month and day fields, modelling the
`datetime.date` values the program passes around. -/
structure Date where
  year : Nat
  month : Nat
  day : Nat
deriving DecidableEq

/-- Chronological comparison of two dates: Python compares `datetime.date`
values lexicographically on (year, month, day). -/
def Date.lt (a b : Date) : Prop :=
  a.year < b.year ∨
    (a.year = b.year ∧ (a.month < b.month ∨ (a.month = b.month ∧ a.day < b.day)))

instance (a b : Date) : Decidable (Date.lt a b) := by
  unfold Date.lt
  infer_instance

/-- Lexicographic comparison of pairs, the building block for Python's
element-by-element list comparison used by `Event.__lt__` via `order_index`:
the first component decides unless equal, in which case the second decides. -/
def lexLt {α β : Type} (la : α → α → Prop) (lb : β → β → Prop) (x y : α × β) : Prop :=
  la x.1 y.1 ∨ (x.1 = y.1 ∧ lb x.2 y.2)

instance {α β : Type} {la : α → α → Prop} {lb : β → β → Prop}
    [DecidableEq α] [∀ p q, Decidable (la p q)] [∀ p q, Decidable (lb p q)]
    (x y : α × β) : Decidable (lexLt la lb x y) := by
  unfold lexLt
  infer_instance

/-- The EventType enumeration (src/main.py lines 194-199). -/
inductive EventType where
  | NATIONAL_DAY
  | HOLIDAY
  | ON_THIS_DAY
  | BIRTH
  | DEATH
deriving DecidableEq

/-- The fixed numeric rank of each EventType member. -/
def EventType.value : EventType → Nat
  | .NATIONAL_DAY => 10
  | .HOLIDAY => 20
  | .ON_THIS_DAY => 30
  | .BIRTH => 40
  | .DEATH => 41

/-- Attribute lookup on the EventType enum by member name: `EventType.N`
succeeds exactly for the five declared members, any other attribute name
raises AttributeError in Python (modelled by `none`). -/
def EventType.fromName (s : String) : Option EventType :=
  if s = "NATIONAL_DAY" then some EventType.NATIONAL_DAY
  else if s = "HOLIDAY" then some EventType.HOLIDAY
  else if s = "ON_THIS_DAY" then some EventType.ON_THIS_DAY
  else if s = "BIRTH" then some EventType.BIRTH
  else if s = "DEATH" then some EventType.DEATH
  else none

/-- A source adapter as the Event model sees it: only its integer weight is
consulted (`Source.weight`, default 10, src/main.py lines 38-43). -/
structure Source where
  weight : Int
deriving DecidableEq

/-- The unified Event record (src/main.py lines 140-155) after
`__init__` has run: `endDate` is never None because the constructor
replaces a missing end date with `date`. -/
structure Event where
  source : Source
  date : Date
  endDate : Date
  title : String
  link : String
  type : EventType
deriving DecidableEq

/-- `Event.__init__` (lines 141-155): parameters in source order; the line
`self.end_date = end_date or date` substitutes `date` when `end_date` is
None (a `datetime.date` is always truthy, so `or` only fires on None). -/
def Event.make (source : Source) (date : Date) (title : String) (link : String)
    (type : EventType) (endDate : Option Date) : Event :=
  ⟨source, date, endDate.getD date, title, link, type⟩

/-- `Event.is_single_day` (lines 157-159): after construction `end_date` is
never None, so the property reduces to `date == end_date`. -/
def Event.isSingleDay (e : Event) : Bool :=
  e.date == e.endDate

/-- `Event.__eq__` (lines 161-164) between two Event values: equality of
title and link only. -/
def Event.beq (a b : Event) : Bool :=
  a.title == b.title && a.link == b.link

/-- The type of `order_index` values: weight, single-day flag, date,
category rank, title. -/
abbrev SortKey := Int × Nat × Date × Nat × String

/-- `Event.order_index` (lines 177-191): the list
`[source.weight, 0 if single-day else 1, date, type.value, title]`. -/
def Event.orderIndex (e : Event) : SortKey :=
  (e.source.weight, if e.isSingleDay then (0 : Nat) else 1, e.date, e.type.value, e.title)

/-- Python's comparison of two `order_index` lists: lexicographic over the
five components. -/
def keyLt : SortKey → SortKey → Prop :=
  lexLt (· < ·) (lexLt (· < ·) (lexLt Date.lt (lexLt (· < ·) (· < ·))))

instance (x y : SortKey) : Decidable (keyLt x y) := by
  unfold keyLt
  infer_instance

/-- `Event.__lt__` (lines 172-175): compare the derived `order_index` lists. -/
def Event.lt (a b : Event) : Prop :=
  keyLt a.orderIndex b.orderIndex

instance (a b : Event) : Decidable (Event.lt a b) := by
  unfold Event.lt
  infer_instance

/-- Python runtime exceptions that the embedded code paths can raise.
`fetchError` stands for the network-failure kind the spec calls FetchError
(src/main.py defines no such class; the constructor exists so that a failing
adapter can be modelled). -/
inductive PyErr where
  | nameError (name : String)
  | typeError (msg : String)
  | valueError (msg : String)
  | attrError (msg : String)
  | fetchError
deriving DecidableEq

/-- Python `year or datetime.date.today().year` (lines 54 and 91): `or`
tests truthiness, so both None and a literal 0 fall back to today's year. -/
def yearOr (year : Option Nat) (todayYear : Nat) : Nat :=
  match year with
  | none => todayYear
  | some 0 => todayYear
  | some y => y

/-- Lines 54-56 (duplicated verbatim at lines 91-93): build the requested
date, then `if year is None and date < today: date += datetime.timedelta(years=1)`.
The name `today` is bound nowhere in the module, so whenever `year` is None
the comparison `date < today` raises NameError before any roll-forward can
happen; with `year` given, the conjunction short-circuits and the date is
returned as built. -/
def resolveFetchDate (todayYear : Nat) (day month : Nat) (year : Option Nat) :
    Except PyErr Date :=
  let d : Date := ⟨yearOr year todayYear, month, day⟩
  match year with
  | some _ => Except.ok d
  | none => Except.error (PyErr.nameError "today")

/-- Lines 54-56 under the charitable reading that `today` means
`datetime.date.today()`: the guard is then evaluated, but the roll-forward
line `date += datetime.timedelta(years=1)` still raises TypeError because
`datetime.timedelta` accepts no `years` keyword argument. -/
def resolveFetchDateWithToday (today : Date) (day month : Nat) (year : Option Nat) :
    Except PyErr Date :=
  let d : Date := ⟨yearOr year today.year, month, day⟩
  if year = none ∧ Date.lt d today then Except.error (PyErr.typeError "timedelta years")
  else Except.ok d

/-- Splits a character list at every occurrence of the separator, keeping
empty pieces, like Python `str.split(sep)`. -/
def splitAux (sep : Char) : List Char → List Char → List (List Char)
  | [], cur => [cur.reverse]
  | c :: cs, cur =>
    if c == sep then cur.reverse :: splitAux sep cs []
    else splitAux sep cs (c :: cur)

/-- Python `content.split(sep)` on a single-character separator. -/
def splitListOn (sep : Char) (cs : List Char) : List (List Char) :=
  splitAux sep cs []

/-- Splits a character list on runs of spaces, dropping empty pieces, like
Python `str.split()` with no argument. -/
def wordsAux : List Char → List Char → List (List Char)
  | [], cur => if cur.isEmpty then [] else [cur.reverse]
  | c :: cs, cur =>
    if c == ' ' then
      if cur.isEmpty then wordsAux cs [] else cur.reverse :: wordsAux cs []
    else wordsAux cs (c :: cur)

/-- Python `s.split()`: whitespace-separated words. -/
def wordsCL (cs : List Char) : List (List Char) :=
  wordsAux cs []

/-- Python `s.split()` returned as strings (used only by the dead guard of
the month-card branch). -/
def wordsOf (s : String) : List String :=
  (wordsCL s.toList).map (fun t => String.mk t)

/-- Python `s.strip()` restricted to the space character, which is the only
whitespace appearing in the card date strings. -/
def trimChars (cs : List Char) : List Char :=
  ((cs.dropWhile fun c => c == ' ').reverse.dropWhile fun c => c == ' ').reverse

/-- Drops trailing commas and periods from a token, as dateutil does before
classifying it. -/
def stripPunct (tok : List Char) : List Char :=
  (tok.reverse.dropWhile fun c => c == ',' || c == '.').reverse

/-- Decimal value of a digit token. -/
def natFromDigits (l : List Char) : Nat :=
  l.foldl (fun acc c => acc * 10 + (c.toNat - '0'.toNat)) 0

/-- Month names and abbreviations recognised by dateutil, lower-cased, with
their month numbers. -/
def monthTable : List (String × Nat) :=
  [("jan", 1), ("january", 1), ("feb", 2), ("february", 2),
   ("mar", 3), ("march", 3), ("apr", 4), ("april", 4), ("may", 5),
   ("jun", 6), ("june", 6), ("jul", 7), ("july", 7), ("aug", 8), ("august", 8),
   ("sep", 9), ("sept", 9), ("september", 9), ("oct", 10), ("october", 10),
   ("nov", 11), ("november", 11), ("dec", 12), ("december", 12)]

/-- Weekday names and abbreviations recognised (and discarded) by dateutil. -/
def weekdayNames : List String :=
  ["mon", "monday", "tue", "tues", "tuesday", "wed", "weds", "wednesday",
   "thu", "thur", "thurs", "thursday", "fri", "friday", "sat", "saturday",
   "sun", "sunday"]

/-- Ordinal suffixes accepted on day numbers ("15th", "1st", ...). -/
def ordSuffixes : List String :=
  ["st", "nd", "rd", "th"]

/-- What a single token contributes to a parsed date. -/
inductive TokClass where
  | skipTok
  | monthTok (m : Nat)
  | dayTok (d : Nat)
  | yearTok (y : Nat)

/-- Classification of one token of a card date string, following dateutil:
weekday names are discarded, month names set the month, a bare number above
31 is a year and otherwise a day, a number with an ordinal suffix is a day;
anything else makes the whole parse raise ValueError. -/
def classifyTok (tok : List Char) : Except PyErr TokClass :=
  let lower := (stripPunct tok).map Char.toLower
  if lower.isEmpty then Except.ok TokClass.skipTok
  else
    let s := String.mk lower
    if weekdayNames.contains s then Except.ok TokClass.skipTok
    else
      match monthTable.lookup s with
      | some m => Except.ok (TokClass.monthTok m)
      | none =>
        if lower.all Char.isDigit then
          let v := natFromDigits lower
          if v > 31 then Except.ok (TokClass.yearTok v) else Except.ok (TokClass.dayTok v)
        else
          let digits := lower.takeWhile Char.isDigit
          let rest := lower.dropWhile Char.isDigit
          if !digits.isEmpty && ordSuffixes.contains (String.mk rest) then
            Except.ok (TokClass.dayTok (natFromDigits digits))
          else Except.error (PyErr.valueError "unparsed token")

/-- Folds token classifications into (year?, month?, day?). -/
def scanToks : List (List Char) → Option Nat → Option Nat → Option Nat →
    Except PyErr (Option Nat × Option Nat × Option Nat)
  | [], y, m, d => Except.ok (y, m, d)
  | t :: ts, y, m, d =>
    match classifyTok t with
    | Except.error e => Except.error e
    | Except.ok TokClass.skipTok => scanToks ts y m d
    | Except.ok (TokClass.monthTok n) => scanToks ts y (some n) d
    | Except.ok (TokClass.dayTok n) => scanToks ts y m (some n)
    | Except.ok (TokClass.yearTok n) => scanToks ts (some n) m d

/-- `dateutil.parser.parse` on the card date strings this program meets:
fields absent from the text are filled from the default date (dateutil's
default is today), exactly as dateutil fills year, month and day from its
default datetime. -/
def dateutilParse (defaultD : Date) (cs : List Char) : Except PyErr Date :=
  match scanToks (wordsCL cs) none none none with
  | Except.error e => Except.error e
  | Except.ok (y, m, d) =>
    Except.ok ⟨y.getD defaultD.year, m.getD defaultD.month, d.getD defaultD.day⟩

/-- Python `==` between a list and an int (line 70, `card_date.content.split() == 2`):
values of different types are never equal, so the comparison is always
False and raises nothing. -/
def pyListEqInt (_l : List String) (_n : Nat) : Bool :=
  false

/-- The dynamically typed value a card date computation leaves in
`event_date`/`end_date`. `dateVal d` is an actual datetime/date object whose
calendar part is `d` (line 78 stores the parsed datetime itself).
`dateMethod d` is the value of `dateutil.parser.parse(...).date` on
lines 68-69: the attribute access is missing its call parentheses, so the
stored object is the *bound method* `date` of a datetime whose calendar
part is `d` — it determines `d` but is not a date, and the claimed calendar
values are never produced. -/
inductive PyDateVal where
  | dateVal (d : Date)
  | dateMethod (d : Date)
deriving DecidableEq

/-- The month-card branch body (lines 72-75). It is unreachable because its
guard is `pyListEqInt`; were it reached, it would itself raise, since
`datetime.datetime.strptime(month, "%b")` rejects a full month name such as
"September" and `datetime.datetime(year, ...)` is handed the unconverted
string year. -/
def monthYearBranch (_content : String) : Except PyErr (PyDateVal × Option PyDateVal) :=
  Except.error (PyErr.valueError "strptime")

/-- The card date dispatch of `DaysOfTheYearSource.fetch_events`
(lines 63-78): a date field containing "-" is split in two and each half is
parsed, but lines 68-69 then read `.date` without calling it, so the branch
yields bound-method objects (`PyDateVal.dateMethod`), not dates; otherwise
the `elif` guard compares a list to the int 2; otherwise the whole field is
parsed as one datetime with no end date (line 78 stores the datetime value
itself). `defaultD` is the date dateutil fills missing fields from (today). -/
def cardDates (defaultD : Date) (content : String) :
    Except PyErr (PyDateVal × Option PyDateVal) :=
  let cs := content.toList
  if cs.contains '-' then
    match splitListOn '-' cs with
    | [s, e] =>
      match dateutilParse defaultD (trimChars s), dateutilParse defaultD (trimChars e) with
      | Except.ok d1, Except.ok d2 =>
        Except.ok (PyDateVal.dateMethod d1, some (PyDateVal.dateMethod d2))
      | Except.error er, _ => Except.error er
      | _, Except.error er => Except.error er
    | _ => Except.error (PyErr.valueError "unpack")
  else if pyListEqInt (wordsOf content) 2 then
    monthYearBranch content
  else
    match dateutilParse defaultD cs with
    | Except.ok d => Except.ok (PyDateVal.dateVal d, none)
    | Except.error e => Except.error e

/-- One entry of the Wikipedia JSON feed: its own year, text and the page
URL found at `pages[0].content_urls.desktop.page`. -/
structure WikiEntry where
  year : Nat
  text : String
  link : String
deriving DecidableEq

/-- The four parallel collections of the feed payload. -/
structure WikiPayload where
  births : List WikiEntry
  deaths : List WikiEntry
  events : List WikiEntry
  holidays : List WikiEntry

/-- The payload-to-record loops of `WikipediaSource.fetch_events`
(lines 97-130). The births loop leaves the Python loop variable
`birth_data` bound to the last birth entry; the deaths loop then reads
`birth_data['pages'][0]...` (line 111) instead of `death_data`, so every
death record receives the last birth entry's link, and with a non-empty
deaths list but no births the name is unbound and NameError is raised.
Events use their own entry; holidays use the resolved year instead of an
entry year. -/
def wikiMapPayload (source : Source) (day month resolvedYear : Nat)
    (p : WikiPayload) : Except PyErr (List Event) :=
  let birthEvents := p.births.map fun b =>
    Event.make source ⟨b.year, month, day⟩ b.text b.link EventType.BIRTH none
  let eventEvents := p.events.map fun ev =>
    Event.make source ⟨ev.year, month, day⟩ ev.text ev.link EventType.ON_THIS_DAY none
  let holidayEvents := p.holidays.map fun h =>
    Event.make source ⟨resolvedYear, month, day⟩ h.text h.link EventType.HOLIDAY none
  match p.births.getLast? with
  | some lastBirth =>
    Except.ok (birthEvents
      ++ p.deaths.map (fun d =>
          Event.make source ⟨d.year, month, day⟩ d.text lastBirth.link EventType.DEATH none)
      ++ eventEvents ++ holidayEvents)
  | none =>
    if p.deaths.isEmpty then Except.ok (birthEvents ++ eventEvents ++ holidayEvents)
    else Except.error (PyErr.nameError "birth_data")

/-- The Wikipedia adapter instance; it inherits the default weight 10. -/
def wikipediaSource : Source :=
  ⟨10⟩

/-- Stable insertion of an event into an already sorted list, placing it
after existing keys it does not strictly precede, as Python's stable sort
orders equal keys. -/
def insertEv (e : Event) : List Event → List Event
  | [] => [e]
  | x :: xs => if Event.lt e x then e :: x :: xs else x :: insertEv e xs

/-- `sorted(all_events)` (line 211): sort by `Event.__lt__`. -/
def sortEvents (l : List Event) : List Event :=
  l.foldl (fun acc e => insertEv e acc) []

/-- The accumulation loop of `EventCollector.events_today` (lines 208-210):
each registered source's fetch result is appended in turn; an exception
raised by any fetch propagates immediately and later sources are not
consulted, because the loop body has no try/except. -/
def collectAll : List (Except PyErr (List Event)) → Except PyErr (List Event)
  | [] => Except.ok []
  | r :: rs =>
    match r with
    | Except.error e => Except.error e
    | Except.ok es =>
      match collectAll rs with
      | Except.error e => Except.error e
      | Except.ok rest => Except.ok (es ++ rest)

/-- `EventCollector.events_today` (lines 206-212) over the results each
registered adapter's fetch would deliver: concatenate, then sort. -/
def eventsToday (results : List (Except PyErr (List Event))) : Except PyErr (List Event) :=
  match collectAll results with
  | Except.error e => Except.error e
  | Except.ok es => Except.ok (sortEvents es)

/-- The source adapter classes defined in the module. -/
inductive SourceKind where
  | daysOfTheYear
  | wikipedia
  | onThisDayCom
deriving DecidableEq

/-- `EventCollector.__init__` (lines 203-204): the registry holds exactly
one adapter, a DaysOfTheYearSource. -/
def collectorSources : List SourceKind :=
  [SourceKind.daysOfTheYear]

/-- The EventType attribute name that `DaysOfTheYearSource.fetch_events`
asks for when constructing an Event (line 82). -/
def daysOfTheYearCategoryName : String :=
  "NATIONAL_DAY_OF_X"

theorem date_lt_tri : ∀ a b : Date, Date.lt a b ∨ a = b ∨ Date.lt b a := by
  intro a b
  cases a
  cases b
  simp only [Date.lt, Date.mk.injEq]
  omega

theorem date_lt_asymm : ∀ a b : Date, Date.lt a b → ¬ Date.lt b a := by
  intro a b
  cases a
  cases b
  simp only [Date.lt]
  omega

theorem date_lt_trans : ∀ a b c : Date, Date.lt a b → Date.lt b c → Date.lt a c := by
  intro a b c
  cases a
  cases b
  cases c
  simp only [Date.lt]
  omega

theorem date_lt_irrefl : ∀ d : Date, ¬ Date.lt d d := by
  intro d
  cases d
  simp only [Date.lt]
  omega

theorem lexLt_tri {α β : Type} {la : α → α → Prop} {lb : β → β → Prop}
    (ha : ∀ a b, la a b ∨ a = b ∨ la b a) (hb : ∀ a b, lb a b ∨ a = b ∨ lb b a) :
    ∀ x y : α × β, lexLt la lb x y ∨ x = y ∨ lexLt la lb y x := by
  rintro ⟨x1, x2⟩ ⟨y1, y2⟩
  rcases ha x1 y1 with h | rfl | h
  · exact Or.inl (Or.inl h)
  · rcases hb x2 y2 with h2 | rfl | h2
    · exact Or.inl (Or.inr ⟨rfl, h2⟩)
    · exact Or.inr (Or.inl rfl)
    · exact Or.inr (Or.inr (Or.inr ⟨rfl, h2⟩))
  · exact Or.inr (Or.inr (Or.inl h))

theorem lexLt_asymm {α β : Type} {la : α → α → Prop} {lb : β → β → Prop}
    (ha : ∀ a b, la a b → ¬ la b a) (hb : ∀ a b, lb a b → ¬ lb b a) :
    ∀ x y : α × β, lexLt la lb x y → ¬ lexLt la lb y x := by
  intro x y hxy hyx
  rcases hxy with h | ⟨e1, h⟩
  · rcases hyx with h' | ⟨e1', h'⟩
    · exact ha _ _ h h'
    · rw [e1'] at h
      exact ha _ _ h h
  · rcases hyx with h' | ⟨e1', h'⟩
    · rw [e1] at h'
      exact ha _ _ h' h'
    · exact hb _ _ h h'

theorem lexLt_trans {α β : Type} {la : α → α → Prop} {lb : β → β → Prop}
    (ha : ∀ a b c, la a b → la b c → la a c) (hb : ∀ a b c, lb a b → lb b c → lb a c) :
    ∀ x y z : α × β, lexLt la lb x y → lexLt la lb y z → lexLt la lb x z := by
  intro x y z hxy hyz
  rcases hxy with h | ⟨e1, h⟩ <;> rcases hyz with h' | ⟨e1', h'⟩
  · exact Or.inl (ha _ _ _ h h')
  · exact Or.inl (e1' ▸ h)
  · exact Or.inl (by rw [e1]; exact h')
  · exact Or.inr ⟨e1.trans e1', hb _ _ _ h h'⟩

theorem key_tri : ∀ x y : SortKey, keyLt x y ∨ x = y ∨ keyLt y x :=
  lexLt_tri (fun a b => lt_trichotomy a b)
    (lexLt_tri (fun a b => lt_trichotomy a b)
      (lexLt_tri date_lt_tri
        (lexLt_tri (fun a b => lt_trichotomy a b) (fun a b => lt_trichotomy a b))))

theorem key_asymm : ∀ x y : SortKey, keyLt x y → ¬ keyLt y x :=
  lexLt_asymm (fun _ _ h => lt_asymm h)
    (lexLt_asymm (fun _ _ h => lt_asymm h)
      (lexLt_asymm date_lt_asymm
        (lexLt_asymm (fun _ _ h => lt_asymm h) (fun _ _ h => lt_asymm h))))

theorem key_trans : ∀ x y z : SortKey, keyLt x y → keyLt y z → keyLt x z :=
  lexLt_trans (fun _ _ _ h h' => lt_trans h h')
    (lexLt_trans (fun _ _ _ h h' => lt_trans h h')
      (lexLt_trans date_lt_trans
        (lexLt_trans (fun _ _ _ h h' => lt_trans h h') (fun _ _ _ h h' => lt_trans h h'))))

theorem key_irrefl : ∀ x : SortKey, ¬ keyLt x x :=
  fun x h => key_asymm x x h h

/-- C1: an Event's ordering key is exactly the tuple (source.weight,
0 if single-day else 1, date, category rank, title) compared
lexicographically, so a record whose source weight is strictly lower sorts
before every record of higher weight regardless of all other fields, and
when the first four components agree the title is the final tie-break. -/
theorem C1_ordering_key :
    (∀ e : Event, Event.orderIndex e =
      (e.source.weight, if e.isSingleDay then (0 : Nat) else 1, e.date, e.type.value, e.title)) ∧
    (∀ a b : Event, a.source.weight < b.source.weight → Event.lt a b) ∧
    (∀ a b : Event, a.source.weight = b.source.weight → a.isSingleDay = b.isSingleDay →
      a.date = b.date → a.type.value = b.type.value → (Event.lt a b ↔ a.title < b.title)) := by
  refine ⟨fun e => rfl, fun a b h => Or.inl h, fun a b hw hs hd ht => ?_⟩
  simp only [Event.lt, Event.orderIndex, keyLt, lexLt]
  rw [hw, hs, hd, ht]
  simp [lt_irrefl, date_lt_irrefl]

/-- C1 witness: a weight-5 record precedes a weight-10 record although every
other field favours the opposite order, and two records equal in weight,
single-day flag, date and category compare exactly as their titles do. -/
theorem C1_ordering_key_witness :
    Event.lt (Event.make ⟨5⟩ ⟨2022, 1, 1⟩ "zz" "l1" EventType.DEATH none)
      (Event.make ⟨10⟩ ⟨2020, 1, 1⟩ "aa" "l2" EventType.NATIONAL_DAY none) ∧
    (Event.lt (Event.make ⟨10⟩ ⟨2021, 5, 5⟩ "apple" "l1" EventType.HOLIDAY none)
        (Event.make ⟨10⟩ ⟨2021, 5, 5⟩ "banana" "l2" EventType.HOLIDAY none) ↔
      ("apple" : String) < "banana") :=
  ⟨C1_ordering_key.2.1 _ _ (by decide), C1_ordering_key.2.2 _ _ rfl rfl rfl rfl⟩

/-- C2: for any two Event records exactly one of a < b, b < a, or a tie on
every ordering-key component holds, and < is transitive: the comparison
induced by the ordering key is a valid total preorder, in particular over
any output list. -/
theorem C2_trichotomy_total_preorder :
    (∀ a b : Event,
      (Event.lt a b ∧ ¬ Event.lt b a ∧ Event.orderIndex a ≠ Event.orderIndex b) ∨
      (Event.lt b a ∧ ¬ Event.lt a b ∧ Event.orderIndex a ≠ Event.orderIndex b) ∨
      (Event.orderIndex a = Event.orderIndex b ∧ ¬ Event.lt a b ∧ ¬ Event.lt b a)) ∧
    (∀ a b c : Event, Event.lt a b → Event.lt b c → Event.lt a c) := by
  constructor
  · intro a b
    rcases key_tri a.orderIndex b.orderIndex with h | h | h
    · exact Or.inl ⟨h, key_asymm _ _ h, fun e => key_irrefl _ (e ▸ h)⟩
    · refine Or.inr (Or.inr ⟨h, fun hl => ?_, fun hl => ?_⟩)
      · have hl' : keyLt a.orderIndex b.orderIndex := hl
        rw [h] at hl'
        exact key_irrefl _ hl'
      · have hl' : keyLt b.orderIndex a.orderIndex := hl
        rw [h] at hl'
        exact key_irrefl _ hl'
    · exact Or.inr (Or.inl ⟨h, key_asymm _ _ h, fun e => key_irrefl _ (e ▸ h)⟩)
  · intro a b c hab hbc
    exact key_trans _ _ _ hab hbc

/-- C2 witness: transitivity applied at three concrete records ordered by
source weight. -/
theorem C2_trichotomy_total_preorder_witness :
    Event.lt (Event.make ⟨1⟩ ⟨2020, 1, 1⟩ "a" "l" EventType.HOLIDAY none)
      (Event.make ⟨3⟩ ⟨2020, 1, 1⟩ "a" "l" EventType.HOLIDAY none) :=
  C2_trichotomy_total_preorder.2
    (Event.make ⟨1⟩ ⟨2020, 1, 1⟩ "a" "l" EventType.HOLIDAY none)
    (Event.make ⟨2⟩ ⟨2020, 1, 1⟩ "a" "l" EventType.HOLIDAY none)
    (Event.make ⟨3⟩ ⟨2020, 1, 1⟩ "a" "l" EventType.HOLIDAY none)
    (by decide) (by decide)

/-- C3 (code bug): with today = 2024-08-10, requesting day 2, month 8 and no
year does not resolve to 2025. As written, `date < today` reads the unbound
name `today` and raises NameError; even reading `today` as
datetime.date.today(), the roll-forward `date += datetime.timedelta(years=1)`
raises TypeError because timedelta has no `years` argument. -/
theorem C3_year_resolution_raises :
    resolveFetchDate 2024 2 8 none = Except.error (PyErr.nameError "today") ∧
    resolveFetchDateWithToday ⟨2024, 8, 10⟩ 2 8 none =
      Except.error (PyErr.typeError "timedelta years") :=
  ⟨rfl, by decide⟩

/-- C4 (code bug): the month-only card date "September, 2022" is not
expanded to the range 2022-09-01 .. 2022-09-30. The guard
`card_date.content.split() == 2` compares a list to an int and is always
False, so the card falls into the single-date branch and yields a single-day
date at dateutil's default day (here today = 2022-09-20). -/
theorem C4_month_card_not_expanded :
    cardDates ⟨2022, 9, 20⟩ "September, 2022" =
      Except.ok (PyDateVal.dateVal ⟨2022, 9, 20⟩, none) ∧
    cardDates ⟨2022, 9, 20⟩ "September, 2022" ≠
      Except.ok (PyDateVal.dateVal ⟨2022, 9, 1⟩, some (PyDateVal.dateVal ⟨2022, 9, 30⟩)) ∧
    pyListEqInt (wordsOf "September, 2022") 2 = false :=
  ⟨by decide, by decide, rfl⟩

/-- C5 (code bug): the ranged card date "Thu Sep 15th, 2022 - Sat Oct 15th, 2022"
is split on "-" and each half handed to dateutil, whose parses carry the
calendar parts 2022-09-15 and 2022-10-15; but lines 68-69 read
`dateutil.parser.parse(...).date` without calling it, so the values stored
into the Event are the bound method objects, not the dates 2022-09-15 and
2022-10-15 the claim requires. -/
theorem C5_range_card_bound_method :
    cardDates ⟨2022, 9, 20⟩ "Thu Sep 15th, 2022 - Sat Oct 15th, 2022" =
      Except.ok (PyDateVal.dateMethod ⟨2022, 9, 15⟩,
        some (PyDateVal.dateMethod ⟨2022, 10, 15⟩)) ∧
    cardDates ⟨2022, 9, 20⟩ "Thu Sep 15th, 2022 - Sat Oct 15th, 2022" ≠
      Except.ok (PyDateVal.dateVal ⟨2022, 9, 15⟩,
        some (PyDateVal.dateVal ⟨2022, 10, 15⟩)) :=
  ⟨by decide, by decide⟩

/-- C6 (code bug): in a payload with one birth entry (link http://b) and one
death entry (link http://d), the death record is produced with the birth
entry's link, not its own: the deaths loop (line 111) reads `birth_data`
instead of `death_data`. -/
theorem C6_death_link_from_birth_entry :
    wikiMapPayload wikipediaSource 2 8 2024
        ⟨[⟨1990, "B", "http://b"⟩], [⟨1950, "D", "http://d"⟩], [], []⟩ =
      Except.ok [Event.make wikipediaSource ⟨1990, 8, 2⟩ "B" "http://b" EventType.BIRTH none,
        Event.make wikipediaSource ⟨1950, 8, 2⟩ "D" "http://b" EventType.DEATH none] ∧
    (Event.make wikipediaSource ⟨1950, 8, 2⟩ "D" "http://b" EventType.DEATH none).link ≠ "http://d" :=
  ⟨rfl, by decide⟩

/-- C7 counterexample: with one failing adapter and one adapter returning a
record, the collection run raises instead of returning the other adapter's
sorted records. -/
theorem C7_counterexample :
    eventsToday [Except.error PyErr.fetchError,
        Except.ok [Event.make ⟨10⟩ ⟨2024, 8, 2⟩ "t" "l" EventType.HOLIDAY none]] =
      Except.error PyErr.fetchError ∧
    eventsToday [Except.error PyErr.fetchError,
        Except.ok [Event.make ⟨10⟩ ⟨2024, 8, 2⟩ "t" "l" EventType.HOLIDAY none]] ≠
      Except.ok [Event.make ⟨10⟩ ⟨2024, 8, 2⟩ "t" "l" EventType.HOLIDAY none] :=
  ⟨rfl, by decide⟩

/-- C7 as amended: the collector has no per-adapter isolation; once a
registered adapter raises FetchError the exception propagates out of the
run, whether or not earlier adapters already returned records, and no list
is returned. -/
theorem C7_error_propagates :
    ∀ (pre : List Event) (post : List (Except PyErr (List Event))),
      eventsToday (Except.error PyErr.fetchError :: post) = Except.error PyErr.fetchError ∧
      eventsToday (Except.ok pre :: Except.error PyErr.fetchError :: post) =
        Except.error PyErr.fetchError :=
  fun _ _ => ⟨rfl, rfl⟩

/-- C8: Event equality is title and link equality, nothing else, and two
records equal in that sense but with different dates have different ordering
keys and occupy different sorted positions (one strictly precedes). -/
theorem C8_equality_title_link :
    (∀ a b : Event, Event.beq a b = true ↔ (a.title = b.title ∧ a.link = b.link)) ∧
    (∃ a b : Event, Event.beq a b = true ∧ a.date ≠ b.date ∧
      Event.orderIndex a ≠ Event.orderIndex b ∧ Event.lt a b) := by
  constructor
  · intro a b
    simp [Event.beq]
  · exact ⟨Event.make ⟨10⟩ ⟨2020, 1, 1⟩ "t" "l" EventType.HOLIDAY none,
      Event.make ⟨10⟩ ⟨2021, 1, 1⟩ "t" "l" EventType.HOLIDAY none,
      by decide, by decide, by decide, by decide⟩

/-- C9 counterexample: the constructor enforces nothing about the end date,
so an Event built with end_date = 2022-09-15 and date = 2022-10-15 has
end_date strictly before date, refuting end_date >= date. -/
theorem C9_counterexample :
    Date.lt (Event.make ⟨10⟩ ⟨2022, 10, 15⟩ "t" "l" EventType.NATIONAL_DAY
        (some ⟨2022, 9, 15⟩)).endDate
      (Event.make ⟨10⟩ ⟨2022, 10, 15⟩ "t" "l" EventType.NATIONAL_DAY
        (some ⟨2022, 9, 15⟩)).date := by
  decide

/-- C9 as amended: when the end_date argument is absent it defaults to date,
and is_single_day holds exactly when date equals end_date; but
end_date >= date is not enforced, and an Event with end_date strictly before
date is constructible. -/
theorem C9_end_date_unenforced :
    (∀ (src : Source) (d : Date) (t l : String) (ty : EventType),
      (Event.make src d t l ty none).endDate = d) ∧
    (∀ e : Event, e.isSingleDay = true ↔ e.date = e.endDate) ∧
    (∃ e : Event, Date.lt e.endDate e.date) := by
  refine ⟨fun src d t l ty => rfl, fun e => ?_,
    ⟨Event.make ⟨10⟩ ⟨2022, 10, 15⟩ "x" "y" EventType.HOLIDAY (some ⟨2021, 1, 1⟩), by decide⟩⟩
  simp [Event.isSingleDay]

/-- C10 (code bug): the registry holds exactly one adapter, the
DaysOfTheYearSource; but the category that source asks for when building its
records, EventType.NATIONAL_DAY_OF_X, is not a member of the EventType enum,
so the lookup fails (AttributeError) instead of tagging records
NATIONAL_DAY. -/
theorem C10_registry_and_category :
    collectorSources = [SourceKind.daysOfTheYear] ∧
    EventType.fromName daysOfTheYearCategoryName = none :=
  ⟨rfl, by decide⟩

end OnThisDay
